import Mathlib

/-!
Verification of the wallet-tracker transaction normalization and historical
balance reconstruction pipeline.

Shallow embedding conventions:
* JS numbers are modelled as `ℚ` (exact rationals); every arithmetic step of
  the source is translated literally, including the `/ 1e9` lamport
  conversions and the dust thresholds.
* JS `null`/`undefined` fields are modelled as `Option`; JS truthiness on
  numbers (`0` falsy) and strings (`""` falsy) is made explicit via the
  `jsTruthy…`/`jsOr…` helpers below.
* `tx.events?.swap` treats a missing `events` object exactly like a missing
  `swap` field, so `events` is embedded as an always-present pair of options.
* `Array.prototype.sort` is a stable in-place sort; it is modelled with
  `List.insertionSort` (stable), and the mutation of the caller's array is
  made explicit by returning the sorted list alongside the result.
* `Number.prototype.toFixed` / `toExponential` are implemented exactly on ℚ
  (round half toward +∞, as the ECMAScript spec prescribes);
  `jsNumToString` (template-literal interpolation of a number) is exact for
  integers and terminating decimals, which covers every value the theorems
  below evaluate it at.
-/

/- `Rat.add` etc. are `@[irreducible]` in Batteries, which blocks kernel
evaluation of concrete rationals by `decide`; restore the default
reducibility for this file so concrete runs of the embedded code reduce. -/
attribute [local semireducible] Rat.add Rat.mul Rat.inv Rat.sub Rat.ofScientific

/-! ### JS value helpers -/

/-- JS truthiness of a nullable string: `null`/`undefined` and `""` are falsy. -/
def jsTruthyS : Option String → Bool
  | some s => s != ""
  | none => false

/-- JS `a || d` for a nullable string `a` and string default `d`. -/
def jsOrS (o : Option String) (d : String) : String :=
  match o with
  | some s => if s = "" then d else s
  | none => d

/-- JS `a || b` for two nullable strings. -/
def jsOrOptS (a b : Option String) : Option String :=
  if jsTruthyS a then a else b

/-- JS truthiness of a nullable number: `null`/`undefined`, `NaN` and `0` are falsy. -/
def jsTruthyQ : Option ℚ → Bool
  | some q => q != 0
  | none => false

/-- JS truthiness of `o?.length` for a nullable array. -/
def jsLenFalsy {α : Type} (o : Option (List α)) : Bool :=
  match o with
  | some (_ :: _) => false
  | _ => true

/-- Left-pad a digit string with zeros up to width `n`. -/
def padLeftZeros (s : String) (n : ℕ) : String :=
  String.mk (List.replicate (n - s.length) '0') ++ s

/-- `Number.prototype.toFixed(digits)`: round to `digits` decimals picking the
larger candidate on ties (round half toward +∞), then print in fixed point. -/
def toFixed (digits : ℕ) (q : ℚ) : String :=
  let n : ℤ := ⌊q * (10 : ℚ) ^ digits + 1 / 2⌋
  let sign := if n < 0 then "-" else ""
  let m : ℕ := n.natAbs
  let ip := m / 10 ^ digits
  let fp := m % 10 ^ digits
  if digits = 0 then sign ++ toString ip
  else sign ++ toString ip ++ "." ++ padLeftZeros (toString fp) digits

/-- Largest `e : ℤ` with `10 ^ e ≤ a`, for `a > 0`. -/
def log10floor (a : ℚ) : ℤ :=
  let k : ℤ := (Nat.log 10 a.num.natAbs : ℤ) - (Nat.log 10 a.den : ℤ)
  if (10 : ℚ) ^ k ≤ a then k else k - 1

/-- `Number.prototype.toExponential(digits)`: mantissa with `digits` decimals
(round half toward +∞, with carry into the exponent) and a signed exponent. -/
def toExponential (digits : ℕ) (q : ℚ) : String :=
  if q = 0 then
    (if digits = 0 then "0" else "0." ++ padLeftZeros "" digits) ++ "e+0"
  else
    let sign := if q < 0 then "-" else ""
    let a := |q|
    let e := log10floor a
    let n : ℕ := (⌊a / (10 : ℚ) ^ e * (10 : ℚ) ^ digits + 1 / 2⌋).natAbs
    let bumped : Bool := 10 ^ (digits + 1) ≤ n
    let n2 := if bumped then n / 10 else n
    let e2 := if bumped then e + 1 else e
    let s := toString n2
    let mant := if digits = 0 then s else s.take 1 ++ "." ++ s.drop 1
    sign ++ mant ++ "e" ++ (if e2 < 0 then "-" else "+") ++ toString e2.natAbs

/-- Template-literal interpolation of a JS number.  Exact for integers and
terminating decimals (the only values it is evaluated at in this file). -/
def jsNumToString (q : ℚ) : String :=
  match (List.range 21).find? (fun k => (q * (10 : ℚ) ^ k).den = 1) with
  | some k => if k = 0 then toString q.num else toFixed k q
  | none => toString q.num ++ "/" ++ toString q.den

/-! ### Raw event data model (shapes read by the source) -/

/-- One entry of `tx.nativeTransfers`; `amount` is in lamports. -/
structure NativeTransfer where
  fromUserAccount : String
  toUserAccount : String
  amount : ℚ
deriving DecidableEq, Repr

/-- One entry of `tx.tokenTransfers`; `tokenAmount` is in display units. -/
structure TokenTransfer where
  fromUserAccount : String
  toUserAccount : String
  tokenAmount : ℚ
  mint : String
  symbol : Option String
  valueUsd : Option ℚ
  decimals : Option ℚ
deriving DecidableEq, Repr

/-- A native leg of `tx.events.swap` (`nativeInput` / `nativeOutput`);
`amount` is in lamports.  A missing `usdValue` is `none`
(JS `parseFloat(undefined)` is `NaN`, which is falsy everywhere it is used). -/
structure SwapNativeLeg where
  amount : ℚ
  usdValue : Option ℚ
deriving DecidableEq, Repr

/-- A token leg of `tx.events.swap` (`tokenInputs[i]` / `tokenOutputs[i]`);
`amount` is in display units. -/
structure SwapTokenLeg where
  amount : ℚ
  mint : String
  symbol : Option String
  usdValue : Option ℚ
deriving DecidableEq, Repr

/-- `tx.events.swap`. -/
structure SwapEvent where
  nativeInput : Option SwapNativeLeg
  nativeOutput : Option SwapNativeLeg
  tokenInputs : Option (List SwapTokenLeg)
  tokenOutputs : Option (List SwapTokenLeg)
  source : Option String
  priceImpact : Option ℚ
deriving DecidableEq, Repr

/-- `tx.events.nft`; `amount` is the sale price in lamports. -/
structure NftEvent where
  type : Option String
  source : Option String
  description : Option String
  seller : Option String
  authority : Option String
  buyer : Option String
  amount : Option ℚ
  collection : Option String
  name : Option String
  image : Option String
deriving DecidableEq, Repr

/-- `tx.events`.  `tx.events?.swap` treats a missing `events` object like a
missing `swap` field, so the pair of options is equivalent to the source. -/
structure TxEvents where
  swap : Option SwapEvent
  nft : Option NftEvent
deriving DecidableEq, Repr

/-- One raw enhanced-transaction event as consumed by the source.
`timestamp` is in unix seconds, `fee` in lamports. -/
structure RawTx where
  signature : String
  timestamp : ℚ
  slot : Option ℚ
  fee : Option ℚ
  feePayer : Option String
  type : Option String
  source : Option String
  description : Option String
  status : Option String
  error : Option String
  events : TxEvents
  nativeTransfers : Option (List NativeTransfer)
  tokenTransfers : Option (List TokenTransfer)
deriving DecidableEq, Repr

/-! ### Canonical transaction model (union of both formatters' outputs) -/

/-- `input` / `output` sub-record of a formatted swap. -/
structure SwapLegOut where
  amount : ℚ
  token : String
  value_usd : Option ℚ
deriving DecidableEq, Repr

/-- The canonical transaction produced by either formatter.  Fields a given
branch does not set remain at the base value (`none` when the JS object would
lack the field). `from_`/`to_` embed the JS `from`/`to` (a Lean keyword). -/
structure FormattedTx where
  signature : String
  type : String
  source : Option String
  description : String
  fee : Option ℚ
  block_time : ℚ
  slot : Option ℚ
  from_ : Option String
  to_ : Option String
  amount : Option ℚ
  status : String
  error : Option String
  program : String
  direction : String
  value_change_usd : Option ℚ
  input : Option SwapLegOut
  output : Option SwapLegOut
  dex : Option String
  price_impact : Option ℚ
  token_symbol : Option String
  mint : Option String
  token : Option String
  decimals : Option ℚ
  collection : Option String
  name : Option String
  image : Option String
  marketplace : Option String
deriving DecidableEq, Repr

/-- Shorten an address: `s.slice(0, 4) + '...' + s.slice(-4)`. -/
def shortAddr (s : String) : String :=
  s.take 4 ++ "..." ++ s.drop (s.length - 4)

/-- `HeliusService.getTokenSymbol`: external DexScreener lookup (modelled by
the pure `resolve` collaborator) with the truncated-mint fallback. -/
def getTokenSymbol (resolve : String → Option String) (mint : String) : String :=
  match resolve mint with
  | some s => if s = "" then mint.take 4 ++ "..." else s
  | none => mint.take 4 ++ "..."

/-- The initial `formatted` object of `HeliusService.formatTransaction`. -/
def formattedBaseH (tx : RawTx) : FormattedTx :=
  { signature := tx.signature
    type := jsOrS tx.type "UNKNOWN"
    source := none
    description := ""
    fee := match tx.fee with
      | some f => if f = 0 then none else some (f / 1000000000)
      | none => none
    block_time := tx.timestamp
    slot := none
    from_ := none
    to_ := none
    amount := none
    status := jsOrS tx.status "Success"
    error := tx.error
    program := jsOrS tx.source "UNKNOWN"
    direction := "unknown"
    value_change_usd := none
    input := none
    output := none
    dex := none
    price_impact := none
    token_symbol := none
    mint := none
    token := none
    decimals := none
    collection := none
    name := none
    image := none
    marketplace := none }

/-- Swap branch of `HeliusService.formatTransaction`. -/
def formatSwapH (resolve : String → Option String) (base : FormattedTx)
    (swap : SwapEvent) : FormattedTx :=
  let swapIn : SwapLegOut :=
    match swap.nativeInput with
    | some ni => { amount := ni.amount / 1000000000, token := "SOL", value_usd := ni.usdValue }
    | none =>
      match swap.tokenInputs with
      | some (tokenIn :: _) =>
        { amount := tokenIn.amount
          token := match tokenIn.symbol with
            | some s => if s = "" then getTokenSymbol resolve tokenIn.mint else s
            | none => getTokenSymbol resolve tokenIn.mint
          value_usd := tokenIn.usdValue }
      | _ => { amount := 0, token := "Unknown", value_usd := none }
  let swapOut : SwapLegOut :=
    match swap.nativeOutput with
    | some no => { amount := no.amount / 1000000000, token := "SOL", value_usd := no.usdValue }
    | none =>
      match swap.tokenOutputs with
      | some (tokenOut :: _) =>
        { amount := tokenOut.amount
          token := match tokenOut.symbol with
            | some s => if s = "" then getTokenSymbol resolve tokenOut.mint else s
            | none => getTokenSymbol resolve tokenOut.mint
          value_usd := tokenOut.usdValue }
      | _ => { amount := 0, token := "Unknown", value_usd := none }
  let inAmount := if swapIn.amount < 0.001 then toExponential 2 swapIn.amount
    else toFixed 3 swapIn.amount
  let outAmount := if swapOut.amount < 0.001 then toExponential 2 swapOut.amount
    else toFixed 3 swapOut.amount
  let desc := "Swapped " ++ inAmount ++ " " ++ swapIn.token ++ " for " ++ outAmount
    ++ " " ++ swapOut.token
  let bothUsd := jsTruthyQ swapIn.value_usd && jsTruthyQ swapOut.value_usd
  { base with
    description := if bothUsd then
        desc ++ " ($" ++ toFixed 2 (swapIn.value_usd.getD 0) ++ " \u00e2\u2020\u2019 $"
          ++ toFixed 2 (swapOut.value_usd.getD 0) ++ ")"
      else desc
    value_change_usd := if bothUsd then
        some (swapOut.value_usd.getD 0 - swapIn.value_usd.getD 0)
      else base.value_change_usd
    type := "SWAP"
    source := some (jsOrS swap.source "DEX")
    direction := "swap"
    input := some swapIn
    output := some swapOut
    dex := swap.source }

/-- Token-transfer branch of `HeliusService.formatTransaction` (leg 0 only);
returns `none` for USD-dust transfers. -/
def formatTokenH (resolve : String → Option String) (base : FormattedTx)
    (transfer : TokenTransfer) (walletAddress : String) : Option FormattedTx :=
  let amount := transfer.tokenAmount
  let fromAddr := transfer.fromUserAccount
  let toAddr := transfer.toUserAccount
  let symbol := match transfer.symbol with
    | some s => if s = "" then getTokenSymbol resolve transfer.mint else s
    | none => getTokenSymbol resolve transfer.mint
  let valueUsd : Option ℚ := match transfer.valueUsd with
    | some v => if v = 0 then none else some v
    | none => none
  if valueUsd.any (fun v => decide (v < 0.01)) then none
  else
    let formattedAmount := if amount < 0.001 then toExponential 3 amount else toFixed 6 amount
    let shortFromAddr := shortAddr fromAddr
    let shortToAddr := shortAddr toAddr
    let withDir : FormattedTx :=
      if fromAddr = walletAddress then
        { base with
          direction := "out"
          description := "Sent " ++ formattedAmount ++ " " ++ symbol ++ " to " ++ shortToAddr
            ++ (if jsTruthyQ valueUsd then " ($" ++ toFixed 2 (valueUsd.getD 0) ++ ")" else "")
          value_change_usd := if jsTruthyQ valueUsd then some (-(valueUsd.getD 0))
            else base.value_change_usd }
      else if toAddr = walletAddress then
        { base with
          direction := "in"
          description := "Received " ++ formattedAmount ++ " " ++ symbol ++ " from "
            ++ shortFromAddr
            ++ (if jsTruthyQ valueUsd then " ($" ++ toFixed 2 (valueUsd.getD 0) ++ ")" else "")
          value_change_usd := if jsTruthyQ valueUsd then some (valueUsd.getD 0)
            else base.value_change_usd }
      else base
    some { withDir with
      type := "TOKEN_TRANSFER"
      from_ := some fromAddr
      to_ := some toAddr
      amount := some amount
      token_symbol := some symbol
      mint := some transfer.mint }

/-- Native-transfer branch of `HeliusService.formatTransaction` (leg 0 only);
returns `none` for transfers below `0.00001` SOL. -/
def formatNativeH (base : FormattedTx) (transfer : NativeTransfer)
    (walletAddress : String) : Option FormattedTx :=
  let amount := transfer.amount / 1000000000
  if amount < 0.00001 then none
  else
    let formattedAmount := if amount < 0.001 then toExponential 3 amount else toFixed 6 amount
    let shortFromAddr := shortAddr transfer.fromUserAccount
    let shortToAddr := shortAddr transfer.toUserAccount
    let withDir : FormattedTx :=
      if transfer.fromUserAccount = walletAddress then
        { base with
          direction := "out"
          description := "Sent " ++ formattedAmount ++ " SOL to " ++ shortToAddr }
      else if transfer.toUserAccount = walletAddress then
        { base with
          direction := "in"
          description := "Received " ++ formattedAmount ++ " SOL from " ++ shortFromAddr }
      else base
    some { withDir with
      type := "SOL_TRANSFER"
      from_ := some transfer.fromUserAccount
      to_ := some transfer.toUserAccount
      amount := some amount
      token_symbol := some "SOL" }

/-- `HeliusService.formatTransaction` (the normalizer used by the pipeline):
skips events with no swap/token/native payload, then dispatches
swap → token transfer → native transfer (first match wins). -/
def formatTransactionH (resolve : String → Option String) (tx : RawTx)
    (walletAddress : String) : Option FormattedTx :=
  if tx.events.swap = none ∧ jsLenFalsy tx.tokenTransfers = true
      ∧ jsLenFalsy tx.nativeTransfers = true then none
  else
    match tx.events.swap with
    | some swap => some (formatSwapH resolve (formattedBaseH tx) swap)
    | none =>
      match tx.tokenTransfers with
      | some (transfer :: _) => formatTokenH resolve (formattedBaseH tx) transfer walletAddress
      | _ =>
        match tx.nativeTransfers with
        | some (transfer :: _) => formatNativeH (formattedBaseH tx) transfer walletAddress
        | _ => none

/-! ### Standalone `formatTransaction` (src/backend/src/utils/transactionFormatter.js) -/

/-- The initial `formatted` object of the standalone `formatTransaction`. -/
def formattedBase (tx : RawTx) : FormattedTx :=
  { signature := tx.signature
    type := jsOrS tx.type "UNKNOWN"
    source := some (jsOrS tx.source "UNKNOWN")
    description := jsOrS tx.description ""
    fee := match tx.fee with
      | some f => if f = 0 then none else some (f / 1000000000)
      | none => none
    block_time := tx.timestamp
    slot := tx.slot
    from_ := none
    to_ := none
    amount := none
    status := jsOrS tx.status "Success"
    error := tx.error
    program := jsOrS tx.source "UNKNOWN"
    direction := "unknown"
    value_change_usd := none
    input := none
    output := none
    dex := none
    price_impact := none
    token_symbol := none
    mint := none
    token := none
    decimals := none
    collection := none
    name := none
    image := none
    marketplace := none }

/-- NFT branch of the standalone `formatTransaction`. -/
def formatNft (formatted : FormattedTx) (nft : NftEvent)
    (walletAddress : String) : FormattedTx :=
  let fromAddr := jsOrOptS nft.seller nft.authority
  let toAddr := nft.buyer
  let direction :=
    if fromAddr = some walletAddress then "out"
    else if toAddr = some walletAddress then "in"
    else "unknown"
  { formatted with
    type := jsOrS nft.type "NFT_TRANSACTION"
    source := some (jsOrS nft.source "UNKNOWN")
    description := jsOrS nft.description "NFT Transaction"
    amount := match nft.amount with
      | some a => if a = 0 then none else some (a / 1000000000)
      | none => none
    from_ := fromAddr
    to_ := toAddr
    direction := direction
    collection := nft.collection
    name := nft.name
    image := nft.image
    marketplace := nft.source }

/-- Swap branch of the standalone `formatTransaction`. -/
def formatSwapStandalone (formatted : FormattedTx) (swap : SwapEvent) : FormattedTx :=
  let swapIn : SwapLegOut :=
    match swap.nativeInput with
    | some ni =>
      { amount := ni.amount / 1000000000, token := "SOL", value_usd := some (ni.usdValue.getD 0) }
    | none =>
      match swap.tokenInputs with
      | some (tokenIn :: _) =>
        { amount := tokenIn.amount
          token := jsOrS tokenIn.symbol "Unknown"
          value_usd := some (tokenIn.usdValue.getD 0) }
      | _ => { amount := 0, token := "Unknown", value_usd := none }
  let swapOut : SwapLegOut :=
    match swap.nativeOutput with
    | some no =>
      { amount := no.amount / 1000000000, token := "SOL", value_usd := some (no.usdValue.getD 0) }
    | none =>
      match swap.tokenOutputs with
      | some (tokenOut :: _) =>
        { amount := tokenOut.amount
          token := jsOrS tokenOut.symbol "Unknown"
          value_usd := some (tokenOut.usdValue.getD 0) }
      | _ => { amount := 0, token := "Unknown", value_usd := none }
  let desc := "Swap: " ++ toFixed 4 swapIn.amount ++ " " ++ swapIn.token ++ " → "
    ++ toFixed 4 swapOut.amount ++ " " ++ swapOut.token
  let bothUsd := jsTruthyQ swapIn.value_usd && jsTruthyQ swapOut.value_usd
  { formatted with
    type := "SWAP"
    source := some (jsOrS swap.source "UNKNOWN")
    description := if bothUsd then
        desc ++ " ($" ++ toFixed 2 (swapIn.value_usd.getD 0) ++ " → $"
          ++ toFixed 2 (swapOut.value_usd.getD 0) ++ ")"
      else desc
    direction := "swap"
    input := some swapIn
    output := some swapOut
    dex := swap.source
    price_impact := swap.priceImpact }

/-- Native-transfer branch of the standalone `formatTransaction` (the loop
returns on its first iteration, so only leg 0 is normalized). -/
def formatNativeStandalone (formatted : FormattedTx) (transfer : NativeTransfer)
    (walletAddress : String) : FormattedTx :=
  let amount := transfer.amount / 1000000000
  let dirDesc : String × String :=
    if transfer.fromUserAccount = walletAddress then
      ("out", "Sent " ++ toFixed 4 amount ++ " SOL")
    else if transfer.toUserAccount = walletAddress then
      ("in", "Received " ++ toFixed 4 amount ++ " SOL")
    else ("unknown", "Transferred " ++ toFixed 4 amount ++ " SOL")
  { formatted with
    type := "TRANSFER"
    source := some "SYSTEM_PROGRAM"
    from_ := some transfer.fromUserAccount
    to_ := some transfer.toUserAccount
    amount := some amount
    description := dirDesc.2
    direction := dirDesc.1
    token := some "SOL"
    decimals := some 9 }

/-- Token-transfer branch of the standalone `formatTransaction` (leg 0 only). -/
def formatTokenStandalone (formatted : FormattedTx) (transfer : TokenTransfer)
    (walletAddress : String) : FormattedTx :=
  let amount := transfer.tokenAmount
  let symbol := jsOrS transfer.symbol "Unknown"
  let dirDesc : String × String :=
    if transfer.fromUserAccount = walletAddress then
      ("out", "Sent " ++ jsNumToString amount ++ " " ++ symbol)
    else if transfer.toUserAccount = walletAddress then
      ("in", "Received " ++ jsNumToString amount ++ " " ++ symbol)
    else ("unknown", "Transferred " ++ jsNumToString amount ++ " " ++ symbol)
  { formatted with
    type := "TOKEN_TRANSFER"
    source := some "SOLANA_PROGRAM_LIBRARY"
    from_ := some transfer.fromUserAccount
    to_ := some transfer.toUserAccount
    amount := some amount
    token_symbol := some symbol
    mint := some transfer.mint
    description := dirDesc.2
    direction := dirDesc.1
    decimals := transfer.decimals }

/-- The standalone `formatTransaction`: dispatches
NFT → swap → native transfer → token transfer → basic record.
`if (tx.nativeTransfers)` is truthy even for an empty array, whose loop body
never runs, so only a nonempty list selects the branch.  The `catch` branch
(returning `null` on a thrown exception) is unreachable in this typed model. -/
def formatTransaction (tx : RawTx) (walletAddress : String) : FormattedTx :=
  let formatted := formattedBase tx
  match tx.events.nft with
  | some nft => formatNft formatted nft walletAddress
  | none =>
    match tx.events.swap with
    | some swap => formatSwapStandalone formatted swap
    | none =>
      match tx.nativeTransfers with
      | some (transfer :: _) => formatNativeStandalone formatted transfer walletAddress
      | _ =>
        match tx.tokenTransfers with
        | some (transfer :: _) => formatTokenStandalone formatted transfer walletAddress
        | _ => formatted

/-! ### Balance History Reconstructor (`HeliusService.calculateHistoricalBalances`) -/

/-- One reconstructed balance snapshot.  The two synthesized points (the seed
at "now" and the 24h-ago fallback) carry no `type`/`description` fields. -/
structure BalancePoint where
  date : ℚ
  solValue : ℚ
  valueChange : ℚ
  hasTransaction : Bool
  type : Option String
  description : Option String
deriving DecidableEq, Repr

/-- The designated wrapped-native (wrapped SOL) mint identifier. -/
def wrappedSolMint : String := "So11111111111111111111111111111111111111112"

/-- Net inverse-sign SOL delta of the swap native legs:
input leg adds back, output leg subtracts. -/
def swapNativeDelta : Option SwapEvent → ℚ
  | none => 0
  | some swap =>
    (match swap.nativeInput with
      | some ni => ni.amount / 1000000000
      | none => 0)
    - (match swap.nativeOutput with
      | some no => no.amount / 1000000000
      | none => 0)

/-- Inverse-sign SOL delta of one native-transfer leg: the amount is added
back when the wallet was the sender and subtracted when it was the receiver
(two independent conditions, as in the source). -/
def nativeLegDelta (walletAddress : String) (t : NativeTransfer) : ℚ :=
  (if t.fromUserAccount = walletAddress then t.amount / 1000000000 else 0)
  - (if t.toUserAccount = walletAddress then t.amount / 1000000000 else 0)

/-- Sum of `nativeLegDelta` over `tx.nativeTransfers` (0 when absent/empty). -/
def nativeTransfersDelta (walletAddress : String) : Option (List NativeTransfer) → ℚ
  | none => 0
  | some l => (l.map (nativeLegDelta walletAddress)).sum

/-- Inverse-sign SOL delta of one token-transfer leg: only wrapped-SOL legs
participate, with the same sign convention as a native leg; `tokenAmount` is
already in display units. -/
def tokenLegDelta (walletAddress : String) (t : TokenTransfer) : ℚ :=
  if t.mint = wrappedSolMint then
    (if t.fromUserAccount = walletAddress then t.tokenAmount else 0)
    - (if t.toUserAccount = walletAddress then t.tokenAmount else 0)
  else 0

/-- Sum of `tokenLegDelta` over `tx.tokenTransfers` (0 when absent/empty). -/
def tokenTransfersDelta (walletAddress : String) : Option (List TokenTransfer) → ℚ
  | none => 0
  | some l => (l.map (tokenLegDelta walletAddress)).sum

/-- Fee added back when truthy and paid by the observed wallet. -/
def feeDelta (walletAddress : String) (tx : RawTx) : ℚ :=
  match tx.fee with
  | some f => if f ≠ 0 ∧ tx.feePayer = some walletAddress then f / 1000000000 else 0
  | none => 0

/-- `valueChangeSOL` of one event in the backward walk. -/
def valueChangeSOL (walletAddress : String) (tx : RawTx) : ℚ :=
  swapNativeDelta tx.events.swap
  + nativeTransfersDelta walletAddress tx.nativeTransfers
  + tokenTransfersDelta walletAddress tx.tokenTransfers
  + feeDelta walletAddress tx

/-- One step of the backward walk over `(runningBalance, balancePoints)`:
events with `|valueChangeSOL| < 1e-6` are skipped entirely; otherwise the
running balance is updated, clamped at zero, and a point is emitted. -/
def histStep (walletAddress : String) (st : ℚ × List BalancePoint) (tx : RawTx) :
    ℚ × List BalancePoint :=
  let valueChange := valueChangeSOL walletAddress tx
  if 0.000001 ≤ |valueChange| then
    let rb := st.1 + valueChange
    let rb2 := if rb < 0 then 0 else rb
    (rb2, st.2 ++ [{ date := tx.timestamp * 1000
                     solValue := rb2
                     valueChange := valueChange
                     hasTransaction := true
                     type := tx.type
                     description := some (jsOrS tx.description "Transaction") }])
  else st

/-- The comparator `(a, b) => b.timestamp - a.timestamp`: `a` may precede `b`
iff `a.timestamp ≥ b.timestamp` (descending, stable on ties). -/
def tsDescRel (a b : RawTx) : Prop := b.timestamp ≤ a.timestamp

instance : DecidableRel tsDescRel := fun a b =>
  inferInstanceAs (Decidable (b.timestamp ≤ a.timestamp))

instance : IsTotal RawTx tsDescRel := ⟨fun a b => le_total b.timestamp a.timestamp⟩

instance : IsTrans RawTx tsDescRel := ⟨fun _ _ _ h1 h2 => le_trans h2 h1⟩

/-- The comparator `(a, b) => a.date - b.date` on balance points. -/
def dateAscRel (a b : BalancePoint) : Prop := a.date ≤ b.date

instance : DecidableRel dateAscRel := fun a b =>
  inferInstanceAs (Decidable (a.date ≤ b.date))

instance : IsTotal BalancePoint dateAscRel := ⟨fun a b => le_total a.date b.date⟩

instance : IsTrans BalancePoint dateAscRel := ⟨fun _ _ _ h1 h2 => le_trans h1 h2⟩

/-- `transactions.sort((a, b) => b.timestamp - a.timestamp)`: a stable sort,
newest first (the adjacent comment in the source says "ascending" but the
comparator is descending). -/
def sortTxsDesc (transactions : List RawTx) : List RawTx :=
  List.insertionSort tsDescRel transactions

/-- The seed point at "now" holding the current balance. -/
def seedPoint (currentBalance nowMs : ℚ) : BalancePoint :=
  { date := nowMs, solValue := currentBalance, valueChange := 0
    hasTransaction := false, type := none, description := none }

/-- The 24h-ago fallback point synthesized when no event produced a point. -/
def fallbackPoint (currentBalance nowMs : ℚ) : BalancePoint :=
  { date := nowMs - 24 * 60 * 60 * 1000, solValue := currentBalance, valueChange := 0
    hasTransaction := false, type := none, description := none }

/-- The backward walk over the (already sorted) event list, starting from the
seed point and the current balance. -/
def histWalk (walletAddress : String) (currentBalance nowMs : ℚ)
    (sortedTxs : List RawTx) : List BalancePoint :=
  (sortedTxs.foldl (histStep walletAddress) (currentBalance, [seedPoint currentBalance nowMs])).2

/-- `HeliusService.calculateHistoricalBalances`, with the ambient `Date.now()`
passed explicitly as `nowMs`.  The first component is the returned list of
balance points; the second is the caller's `transactions` array after the
call (`Array.prototype.sort` reorders the caller's array in place). -/
def calcHistRun (transactions : List RawTx) (currentBalance : ℚ)
    (walletAddress : String) (nowMs : ℚ) : List BalancePoint × List RawTx :=
  let sortedTxs := sortTxsDesc transactions
  let walked := histWalk walletAddress currentBalance nowMs sortedTxs
  let balancePoints :=
    if walked.length = 1 then walked ++ [fallbackPoint currentBalance nowMs]
    else walked
  (List.insertionSort dateAscRel balancePoints, sortedTxs)

/-- The value returned by `HeliusService.calculateHistoricalBalances`. -/
def calculateHistoricalBalances (transactions : List RawTx) (currentBalance : ℚ)
    (walletAddress : String) (nowMs : ℚ) : List BalancePoint :=
  (calcHistRun transactions currentBalance walletAddress nowMs).1

/-! ### Chart Series Preparer (`processedData` in src/src/app/page.tsx) -/

/-- One chart point as consumed by the frontend viewport. -/
structure ChartPoint where
  date : ℚ
  solValue : ℚ
  usdValue : ℚ
  hasTransaction : Bool
deriving DecidableEq, Repr

/-- The gap-filling loop of `processedData`: walk adjacent pairs, inserting
one interpolated midpoint whenever the gap exceeds 2 hours, then keep the
last point. -/
def fillGaps : List ChartPoint → List ChartPoint
  | [] => []
  | [p] => [p]
  | current :: next :: rest =>
    if 2 * 60 * 60 * 1000 < next.date - current.date then
      current
        :: { date := current.date + (next.date - current.date) / 2
             solValue := (current.solValue + next.solValue) / 2
             usdValue := (current.usdValue + next.usdValue) / 2
             hasTransaction := false }
        :: fillGaps (next :: rest)
    else current :: fillGaps (next :: rest)

/-- `processedData` applied to the already-filtered series: empty stays
empty, a single point is duplicated at `Date.now()` for a flat line, and a
multi-point series is gap-filled. -/
def processedData (nowMs : ℚ) : List ChartPoint → List ChartPoint
  | [] => []
  | [p] => [p, { p with date := nowMs }]
  | p :: q :: rest => fillGaps (p :: q :: rest)

/-! ### Concrete fixtures used by the claim theorems -/

/-- The observed wallet address used in concrete scenarios. -/
def addrA : String := "WalletAAAA1111"

/-- A counterparty address. -/
def addrB : String := "OtherAddr2222"

/-- A symbol resolver whose external lookup always fails (the collaborator
degrades to the truncated-mint fallback). -/
def defaultResolve : String → Option String := fun _ => none

/-- An `events` object with neither a swap nor an NFT sub-record. -/
def emptyEvents : TxEvents := { swap := none, nft := none }

/-- The end-to-end scenario event: 1 hour before `nowMs1`, the observed
address sent 2.0 SOL (2e9 lamports) to `addrB`, paying a 5000-lamport
(0.000005 SOL) fee. -/
def scenarioTx : RawTx :=
  { signature := "sig-scenario", timestamp := 1699996400, slot := none
    fee := some 5000, feePayer := some addrA, type := some "TRANSFER"
    description := none, status := none, error := none, source := none
    events := emptyEvents
    nativeTransfers := some [{ fromUserAccount := addrA, toUserAccount := addrB
                               amount := 2000000000 }]
    tokenTransfers := none }

/-- The ambient `Date.now()` of the concrete scenarios (ms). -/
def nowMs1 : ℚ := 1700000000000

/-- The token-transfer leg of `bothTransfersTx`. -/
def bothTok : TokenTransfer :=
  { fromUserAccount := addrA, toUserAccount := addrB, tokenAmount := 5
    mint := "MintCCCCC3333", symbol := some "ABC", valueUsd := none, decimals := some 6 }

/-- An event carrying both a native transfer and a (non-dust) token transfer. -/
def bothTransfersTx : RawTx :=
  { signature := "sig-both", timestamp := 300, slot := none
    fee := none, feePayer := none, type := none
    description := none, status := none, error := none, source := none
    events := emptyEvents
    nativeTransfers := some [{ fromUserAccount := addrA, toUserAccount := addrB
                               amount := 3000000000 }]
    tokenTransfers := some [bothTok] }

/-- The swap sub-record of `swapNativeTx`: 1 SOL in, first token output leg. -/
def swapNativeSwap : SwapEvent :=
  { nativeInput := some { amount := 1000000000, usdValue := none }
    nativeOutput := none
    tokenInputs := none
    tokenOutputs := some [{ amount := 42, mint := "MintDDDDD4444", symbol := some "DDD"
                            usdValue := none }]
    source := some "JUPITER", priceImpact := none }

/-- An event carrying both a swap sub-record and native transfers. -/
def swapNativeTx : RawTx :=
  { signature := "sig-swapnative", timestamp := 400, slot := none
    fee := none, feePayer := none, type := some "SWAP"
    description := none, status := none, error := none, source := none
    events := { swap := some swapNativeSwap, nft := none }
    nativeTransfers := some [{ fromUserAccount := addrA, toUserAccount := addrB
                               amount := 1000000000 }]
    tokenTransfers := none }

/-- A well-formed event with none of the four payload shapes. -/
def noPayloadTx : RawTx :=
  { signature := "sig-nopayload", timestamp := 42, slot := none
    fee := some 5000, feePayer := some addrA, type := none
    description := none, status := none, error := none, source := none
    events := emptyEvents
    nativeTransfers := none, tokenTransfers := none }

/-- A payload-free event with the earlier timestamp. -/
def txEarly : RawTx :=
  { signature := "sig-early", timestamp := 1000, slot := none
    fee := none, feePayer := none, type := none
    description := none, status := none, error := none, source := none
    events := emptyEvents
    nativeTransfers := none, tokenTransfers := none }

/-- A payload-free event with the later timestamp. -/
def txLate : RawTx :=
  { signature := "sig-late", timestamp := 2000, slot := none
    fee := none, feePayer := none, type := none
    description := none, status := none, error := none, source := none
    events := emptyEvents
    nativeTransfers := none, tokenTransfers := none }

/-- A native transfer of `L` lamports from the observed address, no fee. -/
def dustTx (L : ℚ) : RawTx :=
  { signature := "sig-dust", timestamp := 900, slot := none
    fee := none, feePayer := none, type := none
    description := none, status := none, error := none, source := none
    events := emptyEvents
    nativeTransfers := some [{ fromUserAccount := addrA, toUserAccount := addrB
                               amount := L }]
    tokenTransfers := none }

/-- An event in which the observed address received 5 SOL (driving the
backward walk toward a negative prior balance). -/
def negBalTx : RawTx :=
  { signature := "sig-negbal", timestamp := 500, slot := none
    fee := none, feePayer := none, type := none
    description := none, status := none, error := none, source := none
    events := emptyEvents
    nativeTransfers := some [{ fromUserAccount := addrB, toUserAccount := addrA
                               amount := 5000000000 }]
    tokenTransfers := none }

/-- A wrapped-SOL token-transfer leg sent by the observed address. -/
def wrappedLeg : TokenTransfer :=
  { fromUserAccount := addrA, toUserAccount := addrB, tokenAmount := 3 / 2
    mint := wrappedSolMint, symbol := none, valueUsd := none, decimals := some 9 }

/-- A token-transfer leg of some unrelated mint. -/
def otherLeg : TokenTransfer :=
  { fromUserAccount := addrA, toUserAccount := addrB, tokenAmount := 3 / 2
    mint := "MintEEEEE5555", symbol := none, valueUsd := none, decimals := some 6 }

/-- A self-transfer event: both native legs have the observed address as
sender and receiver, and the fee is paid by somebody else. -/
def selfTx : RawTx :=
  { signature := "sig-self", timestamp := 700, slot := none
    fee := some 5000, feePayer := some addrB, type := none
    description := none, status := none, error := none, source := none
    events := emptyEvents
    nativeTransfers := some [{ fromUserAccount := addrA, toUserAccount := addrA
                               amount := 7000000000 }]
    tokenTransfers := none }

/-- Chart point fixtures for the interpolation claim. -/
def chartP0 : ChartPoint := { date := 0, solValue := 4, usdValue := 8, hasTransaction := true }

/-- A chart point 3 hours after `chartP0`. -/
def chartP3h : ChartPoint :=
  { date := 10800000, solValue := 6, usdValue := 10, hasTransaction := true }

/-- The midpoint interpolated between `chartP0` and `chartP3h`. -/
def chartMid3h : ChartPoint :=
  { date := 5400000, solValue := 5, usdValue := 9, hasTransaction := false }

/-- A chart point 1 hour after `chartP0`. -/
def chartP1h : ChartPoint :=
  { date := 3600000, solValue := 6, usdValue := 10, hasTransaction := true }

/-! ### Claim theorems -/

/-- Claim C1, counterexample: on the end-to-end scenario event the pipeline
normalizer labels the transaction `SOL_TRANSFER`, not `TRANSFER`; the
standalone formatter does label it `TRANSFER` but with the description
`Sent 2.0000 SOL` (4 decimals, no counterparty), so neither normalizer
produces the claimed `TRANSFER` + `Sent 2.000000 SOL to <addr>` combination. -/
theorem c1_counterexample :
    (formatTransactionH defaultResolve scenarioTx addrA).map FormattedTx.type
        = some "SOL_TRANSFER"
    ∧ (formatTransactionH defaultResolve scenarioTx addrA).map FormattedTx.type
        ≠ some "TRANSFER"
    ∧ (formatTransaction scenarioTx addrA).type = "TRANSFER"
    ∧ (formatTransaction scenarioTx addrA).description = "Sent 2.0000 SOL"
    ∧ "Sent 2.0000 SOL" ≠ "Sent 2.000000 SOL to Othe...2222" := by decide

/-- Claim C1, amended: with `currentBalance = 10.0` and one native transfer of
2.0 SOL sent 1 hour ago with a 0.000005 SOL fee paid by the observed address,
the Reconstructor outputs exactly the two points
`{date: 1h ago, solValue: 12.000005}` and `{date: now, solValue: 10.0}`
(ascending), and the pipeline normalizer outputs one canonical transaction
with type `SOL_TRANSFER` (not `TRANSFER`), direction `out`, amount `2.0`, and
description `"Sent 2.000000 SOL to Othe...2222"`. -/
theorem c1_scenario_amended :
    calculateHistoricalBalances [scenarioTx] 10 addrA nowMs1
      = [{ date := 1699996400000, solValue := 12.000005, valueChange := 2.000005
           hasTransaction := true, type := some "TRANSFER"
           description := some "Transaction" },
         { date := 1700000000000, solValue := 10, valueChange := 0
           hasTransaction := false, type := none, description := none }]
    ∧ (formatTransactionH defaultResolve scenarioTx addrA).map
        (fun r => (r.type, r.direction, r.amount, r.description))
      = some ("SOL_TRANSFER", "out", some 2, "Sent 2.000000 SOL to Othe...2222") := by
  decide

/-- Claim C2, counterexample: an event carrying both native transfers and
token transfers normalizes as `TOKEN_TRANSFER` in the pipeline normalizer —
the token branch is checked before the native branch — contradicting the
claimed native-over-token precedence. -/
theorem c2_counterexample :
    (formatTransactionH defaultResolve bothTransfersTx addrA).map FormattedTx.type
        = some "TOKEN_TRANSFER"
    ∧ (formatTransactionH defaultResolve bothTransfersTx addrA).map FormattedTx.type
        ≠ some "SOL_TRANSFER"
    ∧ (formatTransactionH defaultResolve bothTransfersTx addrA).map FormattedTx.type
        ≠ some "TRANSFER" := by decide

/-- Claim C8, counterexample: a well-formed raw event with none of the four
payload shapes is normalized to absent (`none`) by the pipeline normalizer,
not to a minimal `UNKNOWN` record. -/
theorem c8_counterexample :
    formatTransactionH defaultResolve noPayloadTx addrA = none := by decide

/-- Claim C9, counterexample: calling the Reconstructor on a two-event list
in ascending timestamp order leaves the caller's array reordered (descending)
— `Array.prototype.sort` mutates the caller's array in place. -/
theorem c9_counterexample :
    (calcHistRun [txEarly, txLate] 0 addrA nowMs1).2 ≠ [txEarly, txLate]
    ∧ (calcHistRun [txEarly, txLate] 0 addrA nowMs1).2 = [txLate, txEarly] := by decide

/-- Claim C7: in the Chart Series Preparer, each adjacent pair of points with
a date gap exceeding 2 hours gets exactly one inserted midpoint whose date is
the arithmetic midpoint and whose `solValue`/`usdValue` are the arithmetic
means, with `hasTransaction = false`; pairs with a gap of 2 hours or less get
no inserted point.  In particular two points 3 hours apart yield exactly one
midpoint and two points 1 hour apart yield none. -/
theorem c7_interpolation :
    (∀ (current next : ChartPoint) (rest : List ChartPoint),
      fillGaps (current :: next :: rest) =
        if 2 * 60 * 60 * 1000 < next.date - current.date then
          current :: { date := (current.date + next.date) / 2
                       solValue := (current.solValue + next.solValue) / 2
                       usdValue := (current.usdValue + next.usdValue) / 2
                       hasTransaction := false }
            :: fillGaps (next :: rest)
        else current :: fillGaps (next :: rest))
    ∧ fillGaps [chartP0, chartP3h] = [chartP0, chartMid3h, chartP3h]
    ∧ fillGaps [chartP0, chartP1h] = [chartP0, chartP1h] := by
  refine ⟨fun current next rest => ?_, by decide, by decide⟩
  rw [fillGaps]
  split
  · simp only [List.cons.injEq, ChartPoint.mk.injEq, and_true, true_and]
    ring
  · rfl

/-- Claim C2, amended: in the pipeline normalizer the precedence is
swap > token transfer > native transfer > none, with no NFT category — an
event with a swap sub-record always normalizes as `SWAP` (so swap + native
transfers is `SWAP`, never a transfer), while native + token transfers
normalizes as `TOKEN_TRANSFER`; in the standalone formatter the precedence is
NFT > swap > native transfer > token transfer > basic record. -/
theorem c2_precedence_amended :
    (∀ (resolve : String → Option String) (tx : RawTx) (walletAddress : String)
        (swap : SwapEvent), tx.events.swap = some swap →
      formatTransactionH resolve tx walletAddress
          = some (formatSwapH resolve (formattedBaseH tx) swap)
        ∧ (formatSwapH resolve (formattedBaseH tx) swap).type = "SWAP"
        ∧ (formatSwapH resolve (formattedBaseH tx) swap).direction = "swap")
    ∧ (∀ (resolve : String → Option String) (tx : RawTx) (walletAddress : String)
        (transfer : TokenTransfer) (rest : List TokenTransfer),
        tx.events.swap = none → tx.tokenTransfers = some (transfer :: rest) →
        formatTransactionH resolve tx walletAddress = none
        ∨ ∃ r, formatTransactionH resolve tx walletAddress = some r
            ∧ r.type = "TOKEN_TRANSFER")
    ∧ (∀ (resolve : String → Option String) (tx : RawTx) (walletAddress : String)
        (transfer : NativeTransfer) (rest : List NativeTransfer),
        tx.events.swap = none → jsLenFalsy tx.tokenTransfers = true →
        tx.nativeTransfers = some (transfer :: rest) →
        formatTransactionH resolve tx walletAddress = none
        ∨ ∃ r, formatTransactionH resolve tx walletAddress = some r
            ∧ r.type = "SOL_TRANSFER")
    ∧ (∀ (tx : RawTx) (walletAddress : String) (nft : NftEvent),
        tx.events.nft = some nft →
        (formatTransaction tx walletAddress).type = jsOrS nft.type "NFT_TRANSACTION")
    ∧ (∀ (tx : RawTx) (walletAddress : String)
        (transfer : NativeTransfer) (rest : List NativeTransfer),
        tx.events.nft = none → tx.events.swap = none →
        tx.nativeTransfers = some (transfer :: rest) →
        (formatTransaction tx walletAddress).type = "TRANSFER") := by
  refine ⟨?_, ?_, ?_, ?_, ?_⟩
  · intro resolve tx walletAddress swap hswap
    have hcond : ¬(tx.events.swap = none ∧ jsLenFalsy tx.tokenTransfers = true
        ∧ jsLenFalsy tx.nativeTransfers = true) := by simp [hswap]
    refine ⟨?_, rfl, rfl⟩
    unfold formatTransactionH
    rw [if_neg hcond, hswap]
  · intro resolve tx walletAddress transfer rest hswap htok
    have hcond : ¬(tx.events.swap = none ∧ jsLenFalsy tx.tokenTransfers = true
        ∧ jsLenFalsy tx.nativeTransfers = true) := by simp [htok, jsLenFalsy]
    unfold formatTransactionH
    rw [if_neg hcond, hswap, htok]
    unfold formatTokenH
    dsimp only
    split
    · exact Or.inl rfl
    · exact Or.inr ⟨_, rfl, rfl⟩
  · intro resolve tx walletAddress transfer rest hswap htok hnat
    have hcond : ¬(tx.events.swap = none ∧ jsLenFalsy tx.tokenTransfers = true
        ∧ jsLenFalsy tx.nativeTransfers = true) := by simp [hnat, jsLenFalsy]
    unfold formatTransactionH
    rw [if_neg hcond, hswap, hnat]
    have htok2 : (tx.tokenTransfers = none) ∨ tx.tokenTransfers = some [] := by
      rcases h : tx.tokenTransfers with _ | (_ | ⟨t, l⟩)
      · exact Or.inl rfl
      · exact Or.inr rfl
      · rw [h] at htok; simp [jsLenFalsy] at htok
    rcases htok2 with h2 | h2 <;> rw [h2] <;>
      · unfold formatNativeH
        dsimp only
        split
        · exact Or.inl rfl
        · exact Or.inr ⟨_, rfl, rfl⟩
  · intro tx walletAddress nft hnft
    unfold formatTransaction
    rw [hnft]
    rfl
  · intro tx walletAddress transfer rest hnft hswap hnat
    unfold formatTransaction
    rw [hnft, hswap, hnat]
    rfl

/-- Claim C2, witness: concrete instances — a swap-plus-native event
normalizes as `SWAP`; the native-plus-token event resolves through the token
branch; natives-only resolves through the native branch; an NFT event drives
the standalone NFT branch; the same native-plus-token event normalizes as
`TRANSFER` in the standalone formatter (native precedes token there). -/
theorem c2_precedence_amended_witness :
    (formatTransactionH defaultResolve swapNativeTx addrA
        = some (formatSwapH defaultResolve (formattedBaseH swapNativeTx) swapNativeSwap)
      ∧ (formatSwapH defaultResolve (formattedBaseH swapNativeTx) swapNativeSwap).type
          = "SWAP"
      ∧ (formatSwapH defaultResolve (formattedBaseH swapNativeTx) swapNativeSwap).direction
          = "swap")
    ∧ (formatTransactionH defaultResolve bothTransfersTx addrA = none
       ∨ ∃ r, formatTransactionH defaultResolve bothTransfersTx addrA = some r
           ∧ r.type = "TOKEN_TRANSFER")
    ∧ (formatTransactionH defaultResolve (dustTx 3000000000) addrA = none
       ∨ ∃ r, formatTransactionH defaultResolve (dustTx 3000000000) addrA = some r
           ∧ r.type = "SOL_TRANSFER")
    ∧ (formatTransaction bothTransfersTx addrA).type = "TRANSFER" :=
  ⟨c2_precedence_amended.1 defaultResolve swapNativeTx addrA swapNativeSwap rfl,
   c2_precedence_amended.2.1 defaultResolve bothTransfersTx addrA bothTok [] rfl rfl,
   c2_precedence_amended.2.2.1 defaultResolve (dustTx 3000000000) addrA
     ⟨addrA, addrB, 3000000000⟩ [] rfl rfl rfl,
   c2_precedence_amended.2.2.2.2 bothTransfersTx addrA
     ⟨addrA, addrB, 3000000000⟩ [] rfl rfl rfl⟩

/-- Claim C8, amended: the pipeline normalizer returns absent (`none`) for
every event with no swap, no (nonempty) token-transfer list and no (nonempty)
native-transfer list; the standalone formatter instead returns the basic
record, whose type defaults to `UNKNOWN` (keeping `tx.type` when present),
whose direction is `unknown`, and whose description defaults to empty
(keeping `tx.description` when present). -/
theorem c8_no_payload_amended :
    (∀ (resolve : String → Option String) (tx : RawTx) (walletAddress : String),
      tx.events.swap = none → jsLenFalsy tx.tokenTransfers = true →
      jsLenFalsy tx.nativeTransfers = true →
      formatTransactionH resolve tx walletAddress = none)
    ∧ (∀ (tx : RawTx) (walletAddress : String),
      tx.events.nft = none → tx.events.swap = none →
      jsLenFalsy tx.nativeTransfers = true → jsLenFalsy tx.tokenTransfers = true →
      (formatTransaction tx walletAddress).type = jsOrS tx.type "UNKNOWN"
      ∧ (formatTransaction tx walletAddress).direction = "unknown"
      ∧ (formatTransaction tx walletAddress).description = jsOrS tx.description "") := by
  constructor
  · intro resolve tx walletAddress h1 h2 h3
    unfold formatTransactionH
    rw [if_pos ⟨h1, h2, h3⟩]
  · intro tx walletAddress hnft hswap hnat htok
    have hnat2 : (tx.nativeTransfers = none) ∨ tx.nativeTransfers = some [] := by
      rcases h : tx.nativeTransfers with _ | (_ | ⟨t, l⟩)
      · exact Or.inl rfl
      · exact Or.inr rfl
      · rw [h] at hnat; simp [jsLenFalsy] at hnat
    have htok2 : (tx.tokenTransfers = none) ∨ tx.tokenTransfers = some [] := by
      rcases h : tx.tokenTransfers with _ | (_ | ⟨t, l⟩)
      · exact Or.inl rfl
      · exact Or.inr rfl
      · rw [h] at htok; simp [jsLenFalsy] at htok
    unfold formatTransaction
    rcases hnat2 with h2 | h2 <;> rcases htok2 with h3 | h3 <;>
      rw [hnft, hswap, h2, h3] <;> exact ⟨rfl, rfl, rfl⟩

/-- Claim C8, witness: at the concrete no-payload event the pipeline
normalizer yields `none` while the standalone formatter yields the basic
`UNKNOWN` record. -/
theorem c8_no_payload_amended_witness :
    formatTransactionH defaultResolve noPayloadTx addrA = none
    ∧ (formatTransaction noPayloadTx addrA).type = jsOrS noPayloadTx.type "UNKNOWN"
    ∧ (formatTransaction noPayloadTx addrA).direction = "unknown"
    ∧ (formatTransaction noPayloadTx addrA).description
        = jsOrS noPayloadTx.description "" :=
  ⟨c8_no_payload_amended.1 defaultResolve noPayloadTx addrA rfl rfl rfl,
   c8_no_payload_amended.2 noPayloadTx addrA rfl rfl rfl rfl⟩

/-- Claim C9, amended: the Reconstructor reorders the caller-supplied array
in place via `Array.prototype.sort`: after the call the caller's sequence is
a permutation of the original, sorted descending by timestamp, and it equals
the original sequence only when that was already sorted descending. -/
theorem c9_mutation_amended (transactions : List RawTx) (currentBalance : ℚ)
    (walletAddress : String) (nowMs : ℚ) :
    ((calcHistRun transactions currentBalance walletAddress nowMs).2).Perm transactions
    ∧ List.Sorted tsDescRel (calcHistRun transactions currentBalance walletAddress nowMs).2
    ∧ (List.Sorted tsDescRel transactions →
        (calcHistRun transactions currentBalance walletAddress nowMs).2 = transactions) := by
  refine ⟨?_, ?_, fun h => ?_⟩
  · exact List.perm_insertionSort tsDescRel transactions
  · exact List.sorted_insertionSort tsDescRel transactions
  · exact h.insertionSort_eq

/-- Claim C9, witness: a list already sorted descending by timestamp is left
unchanged by the call. -/
theorem c9_mutation_amended_witness :
    (calcHistRun [txLate, txEarly] 0 addrA nowMs1).2 = [txLate, txEarly] :=
  (c9_mutation_amended [txLate, txEarly] 0 addrA nowMs1).2.2 (by decide)

/-- Every point accumulated by the backward walk has a non-negative
`solValue`, provided the accumulator starts that way: each emitted point's
value is clamped at zero before being pushed. -/
theorem foldl_histStep_solValue_nonneg (walletAddress : String) :
    ∀ (l : List RawTx) (st : ℚ × List BalancePoint),
      (∀ p ∈ st.2, 0 ≤ p.solValue) →
      ∀ p ∈ (List.foldl (histStep walletAddress) st l).2, 0 ≤ p.solValue := by
  intro l
  induction l with
  | nil => intro st h; simpa using h
  | cons t l ih =>
    intro st h
    rw [List.foldl_cons]
    refine ih _ ?_
    intro p hp
    simp only [histStep] at hp
    by_cases hm : (0.000001 : ℚ) ≤ |valueChangeSOL walletAddress t|
    · rw [if_pos hm] at hp
      rcases List.mem_append.mp hp with hold | hnew
      · exact h p hold
      · rw [List.mem_singleton.mp hnew]
        show (0 : ℚ) ≤ if st.1 + valueChangeSOL walletAddress t < 0 then 0
          else st.1 + valueChangeSOL walletAddress t
        split
        · exact le_refl 0
        · exact le_of_not_lt (by assumption)
    · rw [if_neg hm] at hp
      exact h p hp

/-- Claim C3: for every raw event list, observed address and non-negative
current balance, no `BalancePoint` in the Reconstructor's output has
`solValue < 0`; and whenever the backward walk would drive the running
balance negative on a meaningful event, the balance is clamped to zero and
the clamped point is still emitted into the output (recorded, not dropped). -/
theorem c3_nonneg_clamp (transactions : List RawTx) (currentBalance : ℚ)
    (walletAddress : String) (nowMs : ℚ) (hbal : 0 ≤ currentBalance) :
    (∀ p ∈ calculateHistoricalBalances transactions currentBalance walletAddress nowMs,
        0 ≤ p.solValue)
    ∧ (∀ (rb : ℚ) (acc : List BalancePoint) (tx : RawTx),
        0.000001 ≤ |valueChangeSOL walletAddress tx| →
        rb + valueChangeSOL walletAddress tx < 0 →
        (histStep walletAddress (rb, acc) tx).1 = 0
        ∧ (histStep walletAddress (rb, acc) tx).2
            = acc ++ [{ date := tx.timestamp * 1000, solValue := 0
                        valueChange := valueChangeSOL walletAddress tx
                        hasTransaction := true, type := tx.type
                        description := some (jsOrS tx.description "Transaction") }]) := by
  constructor
  · intro p hp
    simp only [calculateHistoricalBalances, calcHistRun] at hp
    rw [List.mem_insertionSort] at hp
    have hwalk : ∀ q ∈ histWalk walletAddress currentBalance nowMs (sortTxsDesc transactions),
        0 ≤ q.solValue := by
      apply foldl_histStep_solValue_nonneg
      intro q hq
      rw [List.mem_singleton.mp hq]
      exact hbal
    split at hp
    · rcases List.mem_append.mp hp with h1 | h2
      · exact hwalk p h1
      · rw [List.mem_singleton.mp h2]
        exact hbal
    · exact hwalk p hp
  · intro rb acc tx hm hneg
    constructor
    · simp only [histStep]
      rw [if_pos hm]
      show (if rb + valueChangeSOL walletAddress tx < 0 then 0
        else rb + valueChangeSOL walletAddress tx) = 0
      rw [if_pos hneg]
    · simp only [histStep]
      rw [if_pos hm]
      show acc ++ [_] = acc ++ [_]
      rw [if_pos hneg]

/-- Claim C3, witness: with balance 1 and an incoming 5 SOL transfer the walk
clamps at zero and every output point is non-negative. -/
theorem c3_nonneg_clamp_witness :
    (∀ p ∈ calculateHistoricalBalances [negBalTx] 1 addrA nowMs1, 0 ≤ p.solValue)
    ∧ (histStep addrA (1, []) negBalTx).1 = 0 :=
  ⟨(c3_nonneg_clamp [negBalTx] 1 addrA nowMs1 (by norm_num)).1,
   ((c3_nonneg_clamp [negBalTx] 1 addrA nowMs1 (by norm_num)).2 1 [] negBalTx
      (by decide) (by decide)).1⟩

/-- Claim C4: for every raw event list and every permutation of it, the
Reconstructor's output is sorted ascending by `date` (the final sort). -/
theorem c4_output_sorted (transactions permuted : List RawTx) (currentBalance : ℚ)
    (walletAddress : String) (nowMs : ℚ)
    (_hperm : permuted.Perm transactions) :
    List.Sorted dateAscRel
      (calculateHistoricalBalances permuted currentBalance walletAddress nowMs) :=
  List.sorted_insertionSort dateAscRel _

/-- Claim C4, witness: concrete permutation of a two-event list. -/
theorem c4_output_sorted_witness :
    List.Sorted dateAscRel (calculateHistoricalBalances [txEarly, txLate] 3 addrA nowMs1) :=
  c4_output_sorted [txLate, txEarly] [txEarly, txLate] 3 addrA nowMs1 (by decide)

/-- Claim C5: the two dust thresholds are independent — the normalizer drops
any native transfer below `0.00001` SOL, the walk emits a point for any event
whose net change reaches `1e-6`; the concrete `5000`-lamport (0.000005 SOL)
transfer lies strictly between the thresholds: it is absent from the
canonical list yet contributes a `hasTransaction` point to the balance
series. -/
theorem c5_dust_independent :
    (∀ (base : FormattedTx) (t : NativeTransfer) (walletAddress : String),
        t.amount / 1000000000 < 0.00001 → formatNativeH base t walletAddress = none)
    ∧ (∀ (walletAddress : String) (rb : ℚ) (acc : List BalancePoint) (tx : RawTx),
        0.000001 ≤ |valueChangeSOL walletAddress tx| →
        (histStep walletAddress (rb, acc) tx).2.length = acc.length + 1)
    ∧ ((0.000001 : ℚ) ≤ 5000 / 1000000000 ∧ (5000 : ℚ) / 1000000000 < 0.00001
       ∧ formatTransactionH defaultResolve (dustTx 5000) addrA = none
       ∧ ∃ p ∈ calculateHistoricalBalances [dustTx 5000] 10 addrA nowMs1,
           p.date = 900000 ∧ p.hasTransaction = true) := by
  refine ⟨?_, ?_, by decide⟩
  · intro base t walletAddress h
    simp only [formatNativeH]
    rw [if_pos h]
  · intro walletAddress rb acc tx hm
    simp only [histStep]
    rw [if_pos hm]
    simp

/-- Claim C5, witness: the universal parts applied at the 5000-lamport
transfer and at the walk step for the same event. -/
theorem c5_dust_independent_witness :
    formatNativeH (formattedBaseH (dustTx 5000)) ⟨addrA, addrB, 5000⟩ addrA = none
    ∧ (histStep addrA (10, [seedPoint 10 nowMs1]) (dustTx 5000)).2.length
        = [seedPoint 10 nowMs1].length + 1 :=
  ⟨c5_dust_independent.1 (formattedBaseH (dustTx 5000)) ⟨addrA, addrB, 5000⟩ addrA (by decide),
   c5_dust_independent.2.1 addrA 10 [seedPoint 10 nowMs1] (dustTx 5000) (by decide)⟩

/-- Claim C6: in the backward walk a token-transfer leg whose mint is the
wrapped-native identifier contributes to the native balance exactly like a
native-transfer leg of the same display amount (added back when the wallet
sent, subtracted when it received), while a leg of any other mint
contributes nothing. -/
theorem c6_wrapped_native (walletAddress : String) (t : TokenTransfer) :
    (t.mint = wrappedSolMint →
      tokenLegDelta walletAddress t
        = nativeLegDelta walletAddress
            { fromUserAccount := t.fromUserAccount, toUserAccount := t.toUserAccount
              amount := t.tokenAmount * 1000000000 })
    ∧ (t.mint ≠ wrappedSolMint → tokenLegDelta walletAddress t = 0) := by
  constructor
  · intro h
    have hq : t.tokenAmount * 1000000000 / 1000000000 = t.tokenAmount := by
      field_simp
    unfold tokenLegDelta nativeLegDelta
    rw [if_pos h]
    dsimp only
    rw [hq]
  · intro h
    unfold tokenLegDelta
    rw [if_neg h]

/-- Claim C6, witness: the wrapped-SOL leg matches its native counterpart;
the other-mint leg contributes zero. -/
theorem c6_wrapped_native_witness :
    tokenLegDelta addrA wrappedLeg
      = nativeLegDelta addrA
          { fromUserAccount := wrappedLeg.fromUserAccount
            toUserAccount := wrappedLeg.toUserAccount
            amount := wrappedLeg.tokenAmount * 1000000000 }
    ∧ tokenLegDelta addrA otherLeg = 0 :=
  ⟨(c6_wrapped_native addrA wrappedLeg).1 rfl,
   (c6_wrapped_native addrA otherLeg).2 (by decide)⟩

/-- Walk-meaningfulness of an event as a Boolean predicate: whether its net
change reaches the reconstructor's `1e-6` threshold. -/
def meaningfulB (walletAddress : String) (tx : RawTx) : Bool :=
  decide (0.000001 ≤ |valueChangeSOL walletAddress tx|)

/-- A non-meaningful event is skipped entirely: the walk state is unchanged. -/
theorem histStep_of_not_meaningful {walletAddress : String}
    {st : ℚ × List BalancePoint} {tx : RawTx}
    (h : meaningfulB walletAddress tx = false) :
    histStep walletAddress st tx = st := by
  simp only [histStep]
  rw [if_neg (of_decide_eq_false h)]

/-- The walk only sees the meaningful events: folding over a list equals
folding over its meaningful sublist. -/
theorem foldl_histStep_filter (walletAddress : String) :
    ∀ (l : List RawTx) (st : ℚ × List BalancePoint),
      List.foldl (histStep walletAddress) st l
        = List.foldl (histStep walletAddress) st (l.filter (meaningfulB walletAddress)) := by
  intro l
  induction l with
  | nil => intro st; rfl
  | cons t l ih =>
    intro st
    cases h : meaningfulB walletAddress t
    · rw [List.foldl_cons, histStep_of_not_meaningful h, List.filter_cons,
        if_neg (by simp [h])]
      exact ih st
    · rw [List.foldl_cons, List.filter_cons, if_pos (by simp [h]), List.foldl_cons]
      exact ih _

/-- Inserting an element that is `r`-below everything in the list puts it at
the head. -/
theorem orderedInsert_of_forall_rel {α : Type} (r : α → α → Prop) [DecidableRel r]
    {x : α} : ∀ {s : List α}, (∀ y ∈ s, r x y) → List.orderedInsert r x s = x :: s := by
  intro s h
  cases s with
  | nil => rfl
  | cons b t =>
    unfold List.orderedInsert
    rw [if_pos (h b (List.mem_cons_self b t))]

/-- `filter` commutes with `orderedInsert` into a sorted list. -/
theorem filter_orderedInsert {α : Type} (r : α → α → Prop) [DecidableRel r]
    [IsTotal α r] [IsTrans α r] (p : α → Bool) (x : α) :
    ∀ (s : List α), List.Sorted r s →
      (List.orderedInsert r x s).filter p
        = if p x then List.orderedInsert r x (s.filter p) else s.filter p := by
  intro s
  induction s with
  | nil =>
    intro _
    cases hx : p x <;> simp [hx, List.orderedInsert]
  | cons b t ih =>
    intro hs
    have hb : ∀ y ∈ t, r b y := List.rel_of_sorted_cons hs
    have ht : List.Sorted r t := hs.of_cons
    by_cases hxb : r x b
    · rw [List.orderedInsert_of_le r t hxb]
      cases hx : p x
      · simp [List.filter_cons, hx]
      · have hall : ∀ y ∈ (b :: t).filter p, r x y := by
          intro y hy
          have hy2 : y ∈ b :: t := List.mem_of_mem_filter hy
          rcases List.mem_cons.mp hy2 with rfl | hyt
          · exact hxb
          · exact IsTrans.trans x b y hxb (hb y hyt)
        rw [if_pos (by simp [hx]), orderedInsert_of_forall_rel r hall]
        simp [List.filter_cons, hx]
    · have hstep : List.orderedInsert r x (b :: t) = b :: List.orderedInsert r x t := by
        simp only [List.orderedInsert]
        rw [if_neg hxb]
      rw [hstep, List.filter_cons, ih ht, List.filter_cons]
      cases hx : p x <;> cases hpb : p b <;> simp [hx, hpb, List.orderedInsert, hxb]

/-- `filter` commutes with the stable insertion sort. -/
theorem filter_insertionSort {α : Type} (r : α → α → Prop) [DecidableRel r]
    [IsTotal α r] [IsTrans α r] (p : α → Bool) :
    ∀ (l : List α),
      (List.insertionSort r l).filter p = List.insertionSort r (l.filter p) := by
  intro l
  induction l with
  | nil => rfl
  | cons x l ih =>
    rw [List.insertionSort, filter_orderedInsert r p x _ (List.sorted_insertionSort r l),
      ih, List.filter_cons]
    cases hx : p x <;> simp [hx, List.insertionSort]

/-- Claim C10: an event with no swap sub-record, no wrapped-native token
transfers, every native leg a self-transfer of the observed address, and a
fee that is null or paid by somebody else, has net change exactly zero, emits
no balance point, and the Reconstructor's output equals the output with that
event removed from the input. -/
theorem c10_self_transfer (l1 l2 : List RawTx) (e : RawTx) (walletAddress : String)
    (currentBalance nowMs : ℚ)
    (hswap : e.events.swap = none)
    (htok : ∀ t ∈ e.tokenTransfers.getD [], t.mint ≠ wrappedSolMint)
    (hnat : ∀ t ∈ e.nativeTransfers.getD [],
        t.fromUserAccount = walletAddress ∧ t.toUserAccount = walletAddress)
    (hfee : e.fee = none ∨ e.feePayer ≠ some walletAddress) :
    valueChangeSOL walletAddress e = 0
    ∧ calculateHistoricalBalances (l1 ++ e :: l2) currentBalance walletAddress nowMs
        = calculateHistoricalBalances (l1 ++ l2) currentBalance walletAddress nowMs := by
  have hvc : valueChangeSOL walletAddress e = 0 := by
    unfold valueChangeSOL
    rw [hswap]
    have h2 : nativeTransfersDelta walletAddress e.nativeTransfers = 0 := by
      cases hn : e.nativeTransfers with
      | none => rfl
      | some nl =>
        unfold nativeTransfersDelta
        apply List.sum_eq_zero
        intro x hx
        rcases List.mem_map.mp hx with ⟨t, ht, rfl⟩
        have hself := hnat t (by rw [hn]; exact ht)
        unfold nativeLegDelta
        rw [hself.1, hself.2, if_pos rfl]
        ring
    have h3 : tokenTransfersDelta walletAddress e.tokenTransfers = 0 := by
      cases hn : e.tokenTransfers with
      | none => rfl
      | some tl =>
        unfold tokenTransfersDelta
        apply List.sum_eq_zero
        intro x hx
        rcases List.mem_map.mp hx with ⟨t, ht, rfl⟩
        have hmint := htok t (by rw [hn]; exact ht)
        unfold tokenLegDelta
        rw [if_neg hmint]
    have h4 : feeDelta walletAddress e = 0 := by
      unfold feeDelta
      cases hf : e.fee with
      | none => rfl
      | some f =>
        rcases hfee with h | h
        · rw [hf] at h
          exact absurd h (by simp)
        · show (if f ≠ 0 ∧ e.feePayer = some walletAddress then f / 1000000000 else 0) = 0
          exact if_neg (fun hc => h hc.2)
    rw [h2, h3, h4]
    show swapNativeDelta none + 0 + 0 + 0 = 0
    simp [swapNativeDelta]
  refine ⟨hvc, ?_⟩
  have hm : meaningfulB walletAddress e = false := by
    unfold meaningfulB
    rw [hvc]
    decide
  have hkey : histWalk walletAddress currentBalance nowMs (sortTxsDesc (l1 ++ e :: l2))
      = histWalk walletAddress currentBalance nowMs (sortTxsDesc (l1 ++ l2)) := by
    unfold histWalk sortTxsDesc
    rw [foldl_histStep_filter, filter_insertionSort,
      foldl_histStep_filter walletAddress (List.insertionSort tsDescRel (l1 ++ l2)),
      filter_insertionSort]
    have hfilter : (l1 ++ e :: l2).filter (meaningfulB walletAddress)
        = (l1 ++ l2).filter (meaningfulB walletAddress) := by
      rw [List.filter_append, List.filter_append, List.filter_cons,
        if_neg (by simp [hm])]
    rw [hfilter]
  simp only [calculateHistoricalBalances, calcHistRun]
  rw [hkey]

/-- Claim C10, witness: the concrete self-transfer event (7 SOL from the
wallet to itself, fee paid by another address) changes nothing: removing it
from the input leaves the reconstructed series unchanged. -/
theorem c10_self_transfer_witness :
    valueChangeSOL addrA selfTx = 0
    ∧ calculateHistoricalBalances [txEarly, selfTx, txLate] 5 addrA nowMs1
        = calculateHistoricalBalances [txEarly, txLate] 5 addrA nowMs1 :=
  c10_self_transfer [txEarly] [txLate] selfTx addrA 5 nowMs1 rfl (by decide) (by decide)
    (Or.inr (by decide))
